import Mathlib

/-!
Verification of the HarryTix profit-projection engine.

The definitions below are a shallow embedding of the profit/fee/breakeven
arithmetic of the repository's frontend pages (Sensitivity.tsx in its two
variants, Analytics.tsx, Inventory.tsx).  JavaScript numbers are modelled
as exact rationals; `null` is modelled as `Option.none`; JavaScript
truthiness of a nullable number (`x ? e : null`) is modelled by `jsOptApp`,
which yields `none` exactly when the scrutinee is `null` or `0`.
-/

namespace HarryTix

/-- Vivid seller fee rate, `const VIVID_FEE = 0.10` in Sensitivity.tsx. -/
def VIVID_FEE : ℚ := 0.10

/-- StubHub seller fee rate, `const STUBHUB_FEE = 0.15` in Sensitivity.tsx. -/
def STUBHUB_FEE : ℚ := 0.15

/-- A purchased block of tickets, from the `TicketSet` interface of
useComparison.ts (only the fields the projection engine reads; the
source field `section` is named `section_name` here because `section`
is a Lean keyword). -/
structure TicketSet where
  set_name : String
  date : String
  section_name : String
  quantity : ℚ
  cost_per_ticket : ℚ
deriving DecidableEq

/-- Classification of the raw text in a selling-price input field, as seen
by `getPrice` in Sensitivity.tsx: the entry can be absent, the empty
string, a string on which `parseFloat` yields `NaN`, or a string that
`parseFloat` reads as the rational `q`. -/
inductive RawPrice where
  | missing
  | empty
  | nonNumeric
  | numeric (q : ℚ)
deriving DecidableEq

/-- Embedding of `getPrice` (Sensitivity.tsx lines 21-26, also called
`getSellingPrice` in the second variant, lines 312-317):
`if (!val || val === '') return null; const num = parseFloat(val);
return isNaN(num) ? null : num;`. -/
def getPrice : RawPrice → Option ℚ
  | .missing => none
  | .empty => none
  | .nonNumeric => none
  | .numeric q => some q

/-- Embedding of the JavaScript conditional `x ? f(x) : null` on a nullable
number `x`: a number is truthy exactly when it is nonzero (NaN does not
arise in the rational model). -/
def jsOptApp (x : Option ℚ) (f : ℚ → ℚ) : Option ℚ :=
  match x with
  | none => none
  | some v => if v = 0 then none else some (f v)

@[simp] theorem jsOptApp_none (f : ℚ → ℚ) : jsOptApp none f = none := rfl

@[simp] theorem jsOptApp_some (v : ℚ) (f : ℚ → ℚ) :
    jsOptApp (some v) f = if v = 0 then none else some (f v) := rfl

/-- Net payout per ticket: `price * (1 - FEE)` (Sensitivity.tsx lines 38-39
and 411-412).  The spec calls this operation `netReceive`. -/
def netReceive (grossPrice feeRate : ℚ) : ℚ := grossPrice * (1 - feeRate)

/-- Per-ticket profit: `vividReceive - set.cost_per_ticket`
(Sensitivity.tsx line 413).  The spec calls this `profitPerTicket`. -/
def profitPerTicket (netAmount costPerTicket : ℚ) : ℚ := netAmount - costPerTicket

/-- Aggregate profit for a set: `vividProfitPer * set.quantity`
(Sensitivity.tsx line 415).  The spec calls this `aggregateProfit`. -/
def aggregateProfit (profitPer quantity : ℚ) : ℚ := profitPer * quantity

/-- Breakeven selling price: `set.cost_per_ticket / (1 - FEE)`
(Sensitivity.tsx lines 467-468). -/
def breakevenPrice (costPerTicket feeRate : ℚ) : ℚ := costPerTicket / (1 - feeRate)

/-- Row computation `sellPrice ? sellPrice * (1 - FEE) : null`
(Sensitivity.tsx lines 78-79 and 411-412). -/
def rowReceive (feeRate : ℚ) (price : Option ℚ) : Option ℚ :=
  jsOptApp price (fun p => p * (1 - feeRate))

/-- Row computation `vividReceive ? vividReceive - set.cost_per_ticket : null`
(Sensitivity.tsx line 413-414). -/
def rowProfitPer (feeRate costPerTicket : ℚ) (price : Option ℚ) : Option ℚ :=
  jsOptApp (rowReceive feeRate price) (fun r => r - costPerTicket)

/-- Row computation `vividProfitPer ? vividProfitPer * set.quantity : null`
(Sensitivity.tsx lines 415-416). -/
def rowTotalProfit (feeRate costPerTicket quantity : ℚ) (price : Option ℚ) : Option ℚ :=
  jsOptApp (rowProfitPer feeRate costPerTicket price) (fun pp => pp * quantity)

/-- Per-set profit as computed in the first Sensitivity variant
(lines 80-81) and in Analytics.tsx lines 253-255:
`receive ? (receive - cost_per_ticket) * quantity : null`, where the
receive amount is itself a nullable number. -/
def analyticsProfit (receive : Option ℚ) (costPerTicket quantity : ℚ) : Option ℚ :=
  jsOptApp receive (fun r => (r - costPerTicket) * quantity)

/-- The spec's `ProfitProjection` record: net receive per ticket, profit per
ticket, and aggregate profit for the set. -/
structure ProfitProjection where
  netReceive : ℚ
  profitPerTicket : ℚ
  aggregateProfit : ℚ
deriving DecidableEq

/-- The spec's `projectSet(ticketSet, feeSchedule, grossPrice|null)`
operation, assembled from the three nullable row computations of
Sensitivity.tsx lines 410-416: the projection is a value exactly when all
three row computations produce numbers, and null otherwise. -/
def projectSet (s : TicketSet) (feeRate : ℚ) (price : Option ℚ) : Option ProfitProjection :=
  match rowReceive feeRate price, rowProfitPer feeRate s.cost_per_ticket price,
      rowTotalProfit feeRate s.cost_per_ticket s.quantity price with
  | some nr, some pp, some ap => some ⟨nr, pp, ap⟩
  | _, _, _ => none

/-- The concrete ticket set of the spec's example scenario:
quantity 4, cost per ticket 471.25. -/
def setA : TicketSet :=
  { set_name := "A", date := "Oct 9", section_name := "GA", quantity := 4,
    cost_per_ticket := 471.25 }

/-- C3: for every grossPrice ≥ 0 and feeRate in [0,1), netReceive equals
grossPrice * (1 - feeRate), and at feeRate = 0 netReceive is the
identity. -/
theorem netReceive_formula_and_identity (grossPrice feeRate : ℚ)
    (hg : 0 ≤ grossPrice) (hf0 : 0 ≤ feeRate) (hf1 : feeRate < 1) :
    netReceive grossPrice feeRate = grossPrice * (1 - feeRate) ∧
      netReceive grossPrice 0 = grossPrice := by
  constructor
  · rfl
  · simp [netReceive]

/-- Witness for C3 at grossPrice = 700, feeRate = 1/10. -/
theorem netReceive_formula_and_identity_witness :
    netReceive 700 VIVID_FEE = 700 * (1 - VIVID_FEE) ∧ netReceive 700 0 = 700 :=
  netReceive_formula_and_identity 700 VIVID_FEE (by norm_num)
    (by norm_num [VIVID_FEE]) (by norm_num [VIVID_FEE])

/-- C5: for every costPerTicket ≥ 0 and feeRate in [0,1), breakevenPrice
equals costPerTicket / (1 - feeRate), and the division's denominator is
nonzero, so the DivisionUndefined condition cannot arise. -/
theorem breakevenPrice_formula_denominator_nonzero (costPerTicket feeRate : ℚ)
    (hc : 0 ≤ costPerTicket) (hf0 : 0 ≤ feeRate) (hf1 : feeRate < 1) :
    breakevenPrice costPerTicket feeRate = costPerTicket / (1 - feeRate) ∧
      (1 : ℚ) - feeRate ≠ 0 := by
  refine ⟨rfl, ?_⟩
  have h : (0 : ℚ) < 1 - feeRate := by linarith
  exact ne_of_gt h

/-- Witness for C5 at costPerTicket = 471.25, feeRate = 1/10. -/
theorem breakevenPrice_formula_denominator_nonzero_witness :
    breakevenPrice 471.25 VIVID_FEE = 471.25 / (1 - VIVID_FEE) ∧
      (1 : ℚ) - VIVID_FEE ≠ 0 :=
  breakevenPrice_formula_denominator_nonzero 471.25 VIVID_FEE (by norm_num)
    (by norm_num [VIVID_FEE]) (by norm_num [VIVID_FEE])

/-- C6: selling at the breakeven price yields exactly zero profit per
ticket: profitPerTicket (netReceive (breakevenPrice cost fee) fee) cost = 0
for all cost ≥ 0 and fee in [0,1). -/
theorem breakevenPrice_roundtrip (cost fee : ℚ)
    (hc : 0 ≤ cost) (hf0 : 0 ≤ fee) (hf1 : fee < 1) :
    profitPerTicket (netReceive (breakevenPrice cost fee) fee) cost = 0 := by
  have h : (1 : ℚ) - fee ≠ 0 := by
    have : (0 : ℚ) < 1 - fee := by linarith
    exact ne_of_gt this
  simp only [profitPerTicket, netReceive, breakevenPrice]
  rw [div_mul_cancel₀ cost h]
  ring

/-- Witness for C6 at cost = 471.25, fee = 1/10. -/
theorem breakevenPrice_roundtrip_witness :
    profitPerTicket (netReceive (breakevenPrice 471.25 VIVID_FEE) VIVID_FEE) 471.25 = 0 :=
  breakevenPrice_roundtrip 471.25 VIVID_FEE (by norm_num)
    (by norm_num [VIVID_FEE]) (by norm_num [VIVID_FEE])

/-- C8: the spec's example scenario: quantity 4, cost per ticket 471.25,
fee rate 0.10, gross price 700 gives net receive 630, profit per ticket
158.75 and aggregate profit 635, exactly. -/
theorem example_scenario_projection :
    projectSet setA VIVID_FEE (some 700) =
      some ⟨630, 158.75, 635⟩ := by
  have h1 : (700 : ℚ) * (1 - VIVID_FEE) = 630 := by norm_num [VIVID_FEE]
  have h2 : (630 : ℚ) - setA.cost_per_ticket = 158.75 := by norm_num [setA]
  have h3 : (158.75 : ℚ) * setA.quantity = 635 := by norm_num [setA]
  simp only [projectSet, rowTotalProfit, rowProfitPer, rowReceive, jsOptApp_some]
  norm_num [VIVID_FEE, setA]

theorem projectSet_price_none (s : TicketSet) (feeRate : ℚ) :
    projectSet s feeRate none = none := rfl

theorem projectSet_price_zero (s : TicketSet) (feeRate : ℚ) :
    projectSet s feeRate (some 0) = none := by
  simp [projectSet, rowReceive, rowProfitPer, rowTotalProfit]

theorem projectSet_receive_zero (s : TicketSet) (feeRate p : ℚ)
    (hp : p ≠ 0) (h1 : p * (1 - feeRate) = 0) :
    projectSet s feeRate (some p) = none := by
  simp [projectSet, rowReceive, rowProfitPer, rowTotalProfit, hp, h1]

theorem projectSet_profitPer_zero (s : TicketSet) (feeRate p : ℚ)
    (hp : p ≠ 0) (h1 : p * (1 - feeRate) ≠ 0)
    (h2 : p * (1 - feeRate) - s.cost_per_ticket = 0) :
    projectSet s feeRate (some p) = none := by
  simp [projectSet, rowReceive, rowProfitPer, rowTotalProfit, hp, h1, h2]

theorem projectSet_some_char (s : TicketSet) (feeRate p : ℚ)
    (hp : p ≠ 0) (h1 : p * (1 - feeRate) ≠ 0)
    (h2 : p * (1 - feeRate) - s.cost_per_ticket ≠ 0) :
    projectSet s feeRate (some p) =
      some ⟨p * (1 - feeRate), p * (1 - feeRate) - s.cost_per_ticket,
        (p * (1 - feeRate) - s.cost_per_ticket) * s.quantity⟩ := by
  simp [projectSet, rowReceive, rowProfitPer, rowTotalProfit, hp, h1, h2]

/-- C1 counterexample: with the example set (cost per ticket 471.25,
quantity 4) and the Vivid fee, a gross price of 0 yields a null
projection, although the claim says a non-null projection is returned at
gross price 0; and a gross price of -10 yields a non-null projection,
although the claim says negative gross prices yield null. -/
theorem projectSet_zero_negative_counterexample :
    projectSet setA VIVID_FEE (getPrice (RawPrice.numeric 0)) = none ∧
      projectSet setA VIVID_FEE (getPrice (RawPrice.numeric (-10))) ≠ none := by
  constructor
  · show projectSet setA VIVID_FEE (some 0) = none
    exact projectSet_price_zero setA VIVID_FEE
  · show projectSet setA VIVID_FEE (some (-10)) ≠ none
    rw [projectSet_some_char setA VIVID_FEE (-10) (by norm_num)
      (by norm_num [VIVID_FEE]) (by norm_num [VIVID_FEE, setA])]
    simp

/-- C1 (amended): for every ticket set, fee rate below 1 and raw price
input, the projection is null if and only if the normalized gross price is
null (missing, empty or non-numeric input), zero, or exactly the breakeven
price costPerTicket / (1 - feeRate) at which the profit per ticket is
zero; in particular a negative gross price yields a non-null projection
and grossPrice = 0 yields a null one. -/
theorem projectSet_none_iff (s : TicketSet) (feeRate : ℚ) (raw : RawPrice)
    (hf : feeRate < 1) :
    projectSet s feeRate (getPrice raw) = none ↔
      getPrice raw = none ∨ getPrice raw = some 0 ∨
        getPrice raw = some (s.cost_per_ticket / (1 - feeRate)) := by
  have hden : (1 : ℚ) - feeRate ≠ 0 := by
    have h : (0 : ℚ) < 1 - feeRate := by linarith
    exact ne_of_gt h
  cases raw with
  | missing => simp [getPrice, projectSet_price_none]
  | empty => simp [getPrice, projectSet_price_none]
  | nonNumeric => simp [getPrice, projectSet_price_none]
  | numeric q =>
    show projectSet s feeRate (some q) = none ↔ _
    by_cases hq : q = 0
    · subst hq
      simp [getPrice, projectSet_price_zero]
    · have hrec : q * (1 - feeRate) ≠ 0 := mul_ne_zero hq hden
      by_cases hpp : q * (1 - feeRate) - s.cost_per_ticket = 0
      · have hq' : q = s.cost_per_ticket / (1 - feeRate) := by
          rw [eq_div_iff hden]
          linarith [hpp]
        rw [projectSet_profitPer_zero s feeRate q hq hrec hpp]
        simp [getPrice, hq, hq']
      · have hq' : q ≠ s.cost_per_ticket / (1 - feeRate) := by
          intro h
          apply hpp
          rw [h, div_mul_cancel₀ _ hden]
          ring
        rw [projectSet_some_char s feeRate q hq hrec hpp]
        simp [getPrice, hq, hq']

/-- Witness for C1 (amended) at the example set, the Vivid fee and an
empty price field. -/
theorem projectSet_none_iff_witness :
    projectSet setA VIVID_FEE (getPrice RawPrice.empty) = none ↔
      getPrice RawPrice.empty = none ∨ getPrice RawPrice.empty = some 0 ∨
        getPrice RawPrice.empty = some (setA.cost_per_ticket / (1 - VIVID_FEE)) :=
  projectSet_none_iff setA VIVID_FEE RawPrice.empty (by norm_num [VIVID_FEE])

/-- C4: whenever the projection is non-null, its components satisfy the
exact equations profitPerTicket = netReceive - costPerTicket and
aggregateProfit = profitPerTicket * quantity, and likewise the Analytics
per-set profit equals (receive - costPerTicket) * quantity exactly; no
rounding is applied before display. -/
theorem projection_equations_exact (s : TicketSet) (feeRate : ℚ)
    (price : Option ℚ) (proj : ProfitProjection)
    (hproj : projectSet s feeRate price = some proj)
    (receive : Option ℚ) (w : ℚ)
    (hana : analyticsProfit receive s.cost_per_ticket s.quantity = some w) :
    (proj.profitPerTicket = profitPerTicket proj.netReceive s.cost_per_ticket ∧
      proj.aggregateProfit = aggregateProfit proj.profitPerTicket s.quantity) ∧
    w = aggregateProfit (profitPerTicket (receive.getD 0) s.cost_per_ticket)
        s.quantity := by
  constructor
  · cases price with
    | none => rw [projectSet_price_none] at hproj; cases hproj
    | some p =>
      by_cases hp : p = 0
      · subst hp
        rw [projectSet_price_zero] at hproj; cases hproj
      · by_cases h1 : p * (1 - feeRate) = 0
        · rw [projectSet_receive_zero s feeRate p hp h1] at hproj; cases hproj
        · by_cases h2 : p * (1 - feeRate) - s.cost_per_ticket = 0
          · rw [projectSet_profitPer_zero s feeRate p hp h1 h2] at hproj
            cases hproj
          · rw [projectSet_some_char s feeRate p hp h1 h2] at hproj
            injection hproj with hproj
            subst hproj
            exact ⟨rfl, rfl⟩
  · cases receive with
    | none => simp [analyticsProfit] at hana
    | some r =>
      by_cases hr : r = 0
      · simp [analyticsProfit, hr] at hana
      · simp only [analyticsProfit, jsOptApp_some, if_neg hr,
          Option.some.injEq] at hana
        subst hana
        simp [aggregateProfit, profitPerTicket]

/-- Witness for C4 at the example scenario: set with cost 471.25 and
quantity 4, Vivid fee, gross price 700, projection (630, 158.75, 635),
Analytics receive 630 and profit 635. -/
theorem projection_equations_exact_witness :
    ((158.75 : ℚ) = profitPerTicket 630 setA.cost_per_ticket ∧
      (635 : ℚ) = aggregateProfit 158.75 setA.quantity) ∧
    (635 : ℚ) = aggregateProfit (profitPerTicket ((some (630 : ℚ)).getD 0)
        setA.cost_per_ticket) setA.quantity :=
  projection_equations_exact setA VIVID_FEE (some 700) ⟨630, 158.75, 635⟩
    (by rw [projectSet_some_char setA VIVID_FEE 700 (by norm_num)
        (by norm_num [VIVID_FEE]) (by norm_num [VIVID_FEE, setA])]
        norm_num [VIVID_FEE, setA])
    (some 630) 635
    (by simp only [analyticsProfit, jsOptApp_some]
        norm_num [setA])

/-- Running totals of the first Sensitivity variant's inline loop
(lines 29-31): `totalVividProfit`, `totalStubHubProfit`, `totalCost`. -/
structure InlineTotals where
  totalVividProfit : ℚ
  totalStubHubProfit : ℚ
  totalCost : ℚ
deriving DecidableEq

/-- One iteration of the forEach loop of Sensitivity.tsx lines 34-43: the
set's cost is always added to totalCost; when the looked-up price is
truthy, both profit totals also receive `(price * (1 - FEE) - cost) *
quantity`. -/
def inlineStep (lookup : String → Option ℚ) (acc : InlineTotals) (s : TicketSet) :
    InlineTotals :=
  match lookup s.set_name with
  | none => { acc with totalCost := acc.totalCost + s.cost_per_ticket * s.quantity }
  | some p =>
    if p = 0 then
      { acc with totalCost := acc.totalCost + s.cost_per_ticket * s.quantity }
    else
      { totalVividProfit := acc.totalVividProfit +
          (p * (1 - VIVID_FEE) - s.cost_per_ticket) * s.quantity,
        totalStubHubProfit := acc.totalStubHubProfit +
          (p * (1 - STUBHUB_FEE) - s.cost_per_ticket) * s.quantity,
        totalCost := acc.totalCost + s.cost_per_ticket * s.quantity }

/-- Inline totals of the first Sensitivity variant (lines 29-44): the
forEach loop starting from zero accumulators. -/
def inlineTotals (lookup : String → Option ℚ) (sets : List TicketSet) : InlineTotals :=
  sets.foldl (inlineStep lookup) ⟨0, 0, 0⟩

/-- Running accumulators of `calculateTotals` (second variant, lines
323-326). -/
structure CalcAcc where
  totalCost : ℚ
  totalTickets : ℚ
  totalVividRevenue : ℚ
  totalStubHubRevenue : ℚ
deriving DecidableEq

/-- One iteration of the forEach loop of `calculateTotals` (lines 328-337):
cost and ticket count are always accumulated; revenue only when the
looked-up price is truthy. -/
def calcStep (lookup : String → Option ℚ) (acc : CalcAcc) (s : TicketSet) : CalcAcc :=
  match lookup s.set_name with
  | none => { acc with
      totalCost := acc.totalCost + s.cost_per_ticket * s.quantity,
      totalTickets := acc.totalTickets + s.quantity }
  | some p =>
    if p = 0 then
      { acc with
        totalCost := acc.totalCost + s.cost_per_ticket * s.quantity,
        totalTickets := acc.totalTickets + s.quantity }
    else
      { totalCost := acc.totalCost + s.cost_per_ticket * s.quantity,
        totalTickets := acc.totalTickets + s.quantity,
        totalVividRevenue := acc.totalVividRevenue + p * (1 - VIVID_FEE) * s.quantity,
        totalStubHubRevenue := acc.totalStubHubRevenue + p * (1 - STUBHUB_FEE) * s.quantity }

/-- Result record of `calculateTotals` (lines 339-346). -/
structure CalcTotals where
  totalCost : ℚ
  totalTickets : ℚ
  totalVividRevenue : ℚ
  totalStubHubRevenue : ℚ
  totalVividProfit : ℚ
  totalStubHubProfit : ℚ
deriving DecidableEq

/-- Embedding of `calculateTotals` (Sensitivity.tsx second variant, lines
320-347): accumulate cost, tickets and revenue over the sets, then report
each platform's profit as revenue minus total cost. -/
def calculateTotals (lookup : String → Option ℚ) (sets : List TicketSet) : CalcTotals :=
  let a := sets.foldl (calcStep lookup) ⟨0, 0, 0, 0⟩
  { totalCost := a.totalCost, totalTickets := a.totalTickets,
    totalVividRevenue := a.totalVividRevenue,
    totalStubHubRevenue := a.totalStubHubRevenue,
    totalVividProfit := a.totalVividRevenue - a.totalCost,
    totalStubHubProfit := a.totalStubHubRevenue - a.totalCost }

/-- Per-set contribution to the inline profit totals, as a function of the
looked-up price: zero unless the price is truthy. -/
def priceProfitContrib (feeRate cost qty : ℚ) (price : Option ℚ) : ℚ :=
  match price with
  | none => 0
  | some p => if p = 0 then 0 else (p * (1 - feeRate) - cost) * qty

/-- Per-set contribution of a ticket set to the inline profit totals. -/
def profitContrib (feeRate : ℚ) (lookup : String → Option ℚ) (s : TicketSet) : ℚ :=
  priceProfitContrib feeRate s.cost_per_ticket s.quantity (lookup s.set_name)

/-- Per-set contribution of a ticket set to the revenue totals of
`calculateTotals`. -/
def revenueContrib (feeRate : ℚ) (lookup : String → Option ℚ) (s : TicketSet) : ℚ :=
  match lookup s.set_name with
  | none => 0
  | some p => if p = 0 then 0 else p * (1 - feeRate) * s.quantity

/-- Total cost contribution of one set: cost per ticket times quantity. -/
def setCost (s : TicketSet) : ℚ := s.cost_per_ticket * s.quantity

/-- Truthiness of a looked-up price: false for null and for 0. -/
def priceTruthy : Option ℚ → Bool
  | none => false
  | some p => decide (p ≠ 0)

@[simp] theorem priceTruthy_none : priceTruthy none = false := rfl

@[simp] theorem priceTruthy_some (p : ℚ) :
    priceTruthy (some p) = !decide (p = 0) := by
  simp [priceTruthy]

theorem inlineStep_eq (lookup : String → Option ℚ) (acc : InlineTotals)
    (s : TicketSet) :
    inlineStep lookup acc s =
      ⟨acc.totalVividProfit + profitContrib VIVID_FEE lookup s,
       acc.totalStubHubProfit + profitContrib STUBHUB_FEE lookup s,
       acc.totalCost + setCost s⟩ := by
  cases hp : lookup s.set_name with
  | none => simp [inlineStep, hp, profitContrib, priceProfitContrib, setCost]
  | some p =>
    by_cases hz : p = 0
    · subst hz
      simp [inlineStep, hp, profitContrib, priceProfitContrib, setCost]
    · simp [inlineStep, hp, hz, profitContrib, priceProfitContrib, setCost]

theorem foldl_inlineStep (lookup : String → Option ℚ) (sets : List TicketSet)
    (acc : InlineTotals) :
    sets.foldl (inlineStep lookup) acc =
      ⟨acc.totalVividProfit + (sets.map (profitContrib VIVID_FEE lookup)).sum,
       acc.totalStubHubProfit + (sets.map (profitContrib STUBHUB_FEE lookup)).sum,
       acc.totalCost + (sets.map setCost).sum⟩ := by
  induction sets generalizing acc with
  | nil => simp
  | cons s t ih =>
    rw [List.foldl_cons, inlineStep_eq, ih]
    simp only [List.map_cons, List.sum_cons, InlineTotals.mk.injEq]
    refine ⟨by ring, by ring, by ring⟩

theorem inlineTotals_eq (lookup : String → Option ℚ) (sets : List TicketSet) :
    inlineTotals lookup sets =
      ⟨(sets.map (profitContrib VIVID_FEE lookup)).sum,
       (sets.map (profitContrib STUBHUB_FEE lookup)).sum,
       (sets.map setCost).sum⟩ := by
  rw [inlineTotals, foldl_inlineStep]
  simp

theorem calcStep_eq (lookup : String → Option ℚ) (acc : CalcAcc) (s : TicketSet) :
    calcStep lookup acc s =
      ⟨acc.totalCost + setCost s,
       acc.totalTickets + s.quantity,
       acc.totalVividRevenue + revenueContrib VIVID_FEE lookup s,
       acc.totalStubHubRevenue + revenueContrib STUBHUB_FEE lookup s⟩ := by
  cases hp : lookup s.set_name with
  | none => simp [calcStep, hp, revenueContrib, setCost]
  | some p =>
    by_cases hz : p = 0
    · subst hz
      simp [calcStep, hp, revenueContrib, setCost]
    · simp [calcStep, hp, hz, revenueContrib, setCost]

theorem foldl_calcStep (lookup : String → Option ℚ) (sets : List TicketSet)
    (acc : CalcAcc) :
    sets.foldl (calcStep lookup) acc =
      ⟨acc.totalCost + (sets.map setCost).sum,
       acc.totalTickets + (sets.map (fun s => s.quantity)).sum,
       acc.totalVividRevenue + (sets.map (revenueContrib VIVID_FEE lookup)).sum,
       acc.totalStubHubRevenue + (sets.map (revenueContrib STUBHUB_FEE lookup)).sum⟩ := by
  induction sets generalizing acc with
  | nil => simp
  | cons s t ih =>
    rw [List.foldl_cons, calcStep_eq, ih]
    simp only [List.map_cons, List.sum_cons, CalcAcc.mk.injEq]
    refine ⟨by ring, by ring, by ring, by ring⟩

theorem calculateTotals_eq (lookup : String → Option ℚ) (sets : List TicketSet) :
    calculateTotals lookup sets =
      ⟨(sets.map setCost).sum,
       (sets.map (fun s => s.quantity)).sum,
       (sets.map (revenueContrib VIVID_FEE lookup)).sum,
       (sets.map (revenueContrib STUBHUB_FEE lookup)).sum,
       (sets.map (revenueContrib VIVID_FEE lookup)).sum - (sets.map setCost).sum,
       (sets.map (revenueContrib STUBHUB_FEE lookup)).sum - (sets.map setCost).sum⟩ := by
  rw [calculateTotals]
  rw [foldl_calcStep]
  simp

/-- Spec-side portfolio total profit: the sum over all sets of the set's
aggregate profit, null projections contributing zero.  Written from the
spec's projectPortfolio description for comparison with the two code
variants. -/
def specTotalProfit (feeRate : ℚ) (lookup : String → Option ℚ)
    (sets : List TicketSet) : ℚ :=
  (sets.map (fun s =>
    (projectSet s feeRate (lookup s.set_name)).elim 0 ProfitProjection.aggregateProfit)).sum

theorem projectSet_elim_agg (s : TicketSet) (feeRate : ℚ) (price : Option ℚ)
    (h : (1 : ℚ) - feeRate ≠ 0) :
    (projectSet s feeRate price).elim 0 ProfitProjection.aggregateProfit =
      priceProfitContrib feeRate s.cost_per_ticket s.quantity price := by
  cases price with
  | none => rfl
  | some p =>
    by_cases hz : p = 0
    · subst hz
      rw [projectSet_price_zero]
      simp [priceProfitContrib]
    · have hrec : p * (1 - feeRate) ≠ 0 := mul_ne_zero hz h
      by_cases hpp : p * (1 - feeRate) - s.cost_per_ticket = 0
      · rw [projectSet_profitPer_zero s feeRate p hz hrec hpp]
        simp [priceProfitContrib, hz, hpp]
      · rw [projectSet_some_char s feeRate p hz hrec hpp]
        simp [priceProfitContrib, hz]

theorem specTotalProfit_eq (feeRate : ℚ) (lookup : String → Option ℚ)
    (sets : List TicketSet) (h : (1 : ℚ) - feeRate ≠ 0) :
    specTotalProfit feeRate lookup sets =
      (sets.map (profitContrib feeRate lookup)).sum := by
  induction sets with
  | nil => rfl
  | cons s t ih =>
    simp only [specTotalProfit, List.map_cons, List.sum_cons] at ih ⊢
    rw [ih, projectSet_elim_agg s feeRate (lookup s.set_name) h]
    rfl

theorem revenue_minus_cost_eq (feeRate : ℚ) (lookup : String → Option ℚ)
    (sets : List TicketSet) :
    (sets.map (revenueContrib feeRate lookup)).sum - (sets.map setCost).sum =
      (sets.map (profitContrib feeRate lookup)).sum -
        ((sets.filter (fun s => !(priceTruthy (lookup s.set_name)))).map setCost).sum := by
  induction sets with
  | nil => simp
  | cons s t ih =>
    cases hp : lookup s.set_name with
    | none =>
      have hrc : revenueContrib feeRate lookup s = 0 := by
        simp [revenueContrib, hp]
      have hpc : profitContrib feeRate lookup s = 0 := by
        simp [profitContrib, priceProfitContrib, hp]
      have hcond : (!priceTruthy (lookup s.set_name)) = true := by
        rw [hp]; rfl
      simp only [List.map_cons, List.sum_cons, List.filter_cons, hcond, if_true,
        hrc, hpc]
      linarith [ih]
    | some p =>
      by_cases hz : p = 0
      · have hrc : revenueContrib feeRate lookup s = 0 := by
          simp [revenueContrib, hp, hz]
        have hpc : profitContrib feeRate lookup s = 0 := by
          simp [profitContrib, priceProfitContrib, hp, hz]
        have hcond : (!priceTruthy (lookup s.set_name)) = true := by
          rw [hp, priceTruthy_some, hz]
          simp
        simp only [List.map_cons, List.sum_cons, List.filter_cons, hcond, if_true,
          hrc, hpc]
        linarith [ih]
      · have hrc : revenueContrib feeRate lookup s =
            p * (1 - feeRate) * s.quantity := by
          simp [revenueContrib, hp, hz]
        have hpc : profitContrib feeRate lookup s =
            (p * (1 - feeRate) - s.cost_per_ticket) * s.quantity := by
          simp [profitContrib, priceProfitContrib, hp, hz]
        have hcond : (!priceTruthy (lookup s.set_name)) = false := by
          rw [hp, priceTruthy_some]
          simp [hz]
        have hx : (p * (1 - feeRate) - s.cost_per_ticket) * s.quantity =
            p * (1 - feeRate) * s.quantity - s.cost_per_ticket * s.quantity := by
          ring
        simp only [List.map_cons, List.sum_cons, List.filter_cons, hcond,
          Bool.false_eq_true, if_false, hrc, hpc, setCost]
        linarith [ih, hx]

/-- C2 counterexample: with the single example set (cost per ticket 471.25,
quantity 4) and no price entered, calculateTotals reports a total Vivid
profit of -1885, subtracting the unpriced set's cost, while the sum of
aggregate profits with null projections contributing zero is 0. -/
theorem calculateTotals_missing_price_counterexample :
    (calculateTotals (fun _ => none) [setA]).totalVividProfit = -1885 ∧
      specTotalProfit VIVID_FEE (fun _ => none) [setA] = 0 := by
  constructor
  · rw [calculateTotals_eq]
    norm_num [revenueContrib, setCost, setA]
  · rw [specTotalProfit_eq VIVID_FEE _ _ (by norm_num [VIVID_FEE])]
    norm_num [profitContrib, priceProfitContrib]

/-- C2 (amended): in both implementations totalCost is the sum of
cost_per_ticket * quantity over all sets, independent of price presence;
the inline totals equal the sum of aggregate profits with null projections
contributing zero; calculateTotals instead reports that sum minus the cost
of every set whose price is missing or zero, so a missing price subtracts
that set's cost from its total. -/
theorem portfolio_totals_characterization (lookup : String → Option ℚ)
    (sets : List TicketSet) :
    (inlineTotals lookup sets).totalCost =
        (sets.map (fun s => s.cost_per_ticket * s.quantity)).sum ∧
    (calculateTotals lookup sets).totalCost =
        (sets.map (fun s => s.cost_per_ticket * s.quantity)).sum ∧
    (inlineTotals lookup sets).totalVividProfit = specTotalProfit VIVID_FEE lookup sets ∧
    (inlineTotals lookup sets).totalStubHubProfit = specTotalProfit STUBHUB_FEE lookup sets ∧
    (calculateTotals lookup sets).totalVividProfit =
      specTotalProfit VIVID_FEE lookup sets -
        ((sets.filter (fun s => !(priceTruthy (lookup s.set_name)))).map setCost).sum ∧
    (calculateTotals lookup sets).totalStubHubProfit =
      specTotalProfit STUBHUB_FEE lookup sets -
        ((sets.filter (fun s => !(priceTruthy (lookup s.set_name)))).map setCost).sum := by
  have hv : (1 : ℚ) - VIVID_FEE ≠ 0 := by norm_num [VIVID_FEE]
  have hs : (1 : ℚ) - STUBHUB_FEE ≠ 0 := by norm_num [STUBHUB_FEE]
  rw [inlineTotals_eq, calculateTotals_eq, specTotalProfit_eq VIVID_FEE lookup sets hv,
    specTotalProfit_eq STUBHUB_FEE lookup sets hs]
  refine ⟨rfl, rfl, rfl, rfl, ?_, ?_⟩
  · exact revenue_minus_cost_eq VIVID_FEE lookup sets
  · exact revenue_minus_cost_eq STUBHUB_FEE lookup sets

/-- A second concrete ticket set, used to exercise permutations. -/
def setB : TicketSet :=
  { set_name := "B", date := "Oct 17", section_name := "Section 204", quantity := 2,
    cost_per_ticket := 300 }

/-- C7: permuting the input set list changes neither implementation's
totals: totalCost and the profit totals are invariant under permutation. -/
theorem portfolio_totals_perm (lookup : String → Option ℚ)
    (sets1 sets2 : List TicketSet) (h : List.Perm sets1 sets2) :
    inlineTotals lookup sets1 = inlineTotals lookup sets2 ∧
      calculateTotals lookup sets1 = calculateTotals lookup sets2 := by
  have hmap : ∀ f : TicketSet → ℚ, (sets1.map f).sum = (sets2.map f).sum :=
    fun f => (h.map f).sum_eq
  constructor
  · rw [inlineTotals_eq, inlineTotals_eq, hmap, hmap, hmap]
  · rw [calculateTotals_eq, calculateTotals_eq, hmap, hmap, hmap, hmap]

/-- Witness for C7: swapping the two example sets leaves both totals
records unchanged. -/
theorem portfolio_totals_perm_witness :
    inlineTotals (fun _ => some 700) [setA, setB] =
        inlineTotals (fun _ => some 700) [setB, setA] ∧
      calculateTotals (fun _ => some 700) [setA, setB] =
        calculateTotals (fun _ => some 700) [setB, setA] :=
  portfolio_totals_perm (fun _ => some 700) [setA, setB] [setB, setA]
    (List.Perm.swap setB setA [])

theorem priced_profit_sum (feeRate : ℚ) (lookup : String → Option ℚ)
    (sets : List TicketSet)
    (h : ∀ s ∈ sets, 0 < ((lookup s.set_name).getD 0)) :
    (sets.map (profitContrib feeRate lookup)).sum =
      (sets.map (revenueContrib feeRate lookup)).sum - (sets.map setCost).sum := by
  induction sets with
  | nil => simp
  | cons s t ih =>
    have hs := h s (List.mem_cons_self s t)
    have ht : ∀ x ∈ t, 0 < ((lookup x.set_name).getD 0) :=
      fun x hx => h x (List.mem_cons_of_mem s hx)
    simp only [List.map_cons, List.sum_cons]
    rw [ih ht]
    cases hp : lookup s.set_name with
    | none =>
      rw [hp] at hs
      simp at hs
    | some p =>
      rw [hp] at hs
      simp only [Option.getD_some] at hs
      have hz : p ≠ 0 := ne_of_gt hs
      simp only [profitContrib, priceProfitContrib, revenueContrib, setCost, hp,
        if_neg hz]
      ring

/-- C9: when the price lookup returns a positive number for every set, the
first variant's per-set profit sums coincide with calculateTotals'
revenue-minus-total-cost profits, for both the Vivid and the StubHub fee
rates. -/
theorem totals_variants_agree (lookup : String → Option ℚ) (sets : List TicketSet)
    (h : ∀ s ∈ sets, 0 < ((lookup s.set_name).getD 0)) :
    (inlineTotals lookup sets).totalVividProfit =
        (calculateTotals lookup sets).totalVividProfit ∧
      (inlineTotals lookup sets).totalStubHubProfit =
        (calculateTotals lookup sets).totalStubHubProfit := by
  rw [inlineTotals_eq, calculateTotals_eq]
  exact ⟨priced_profit_sum VIVID_FEE lookup sets h,
    priced_profit_sum STUBHUB_FEE lookup sets h⟩

/-- Witness for C9 at the example set with price 700 entered. -/
theorem totals_variants_agree_witness :
    (inlineTotals (fun _ => some 700) [setA]).totalVividProfit =
        (calculateTotals (fun _ => some 700) [setA]).totalVividProfit ∧
      (inlineTotals (fun _ => some 700) [setA]).totalStubHubProfit =
        (calculateTotals (fun _ => some 700) [setA]).totalStubHubProfit :=
  totals_variants_agree (fun _ => some 700) [setA]
    (by intro s hs; norm_num [Option.getD_some])

/-- Char-list test that the first list is an initial segment of the
second, used to implement the substring test of JavaScript's
String.prototype.includes. -/
def startsWithChars : List Char → List Char → Bool
  | [], _ => true
  | _ :: _, [] => false
  | a :: as, b :: bs => a == b && startsWithChars as bs

/-- Char-list substring test: does the needle occur contiguously in the
haystack? -/
def hasSubChars (needle : List Char) : List Char → Bool
  | [] => needle.isEmpty
  | c :: rest => startsWithChars needle (c :: rest) || hasSubChars needle rest

/-- Embedding of `hay.includes(needle)` on strings. -/
def strIncludes (hay needle : String) : Bool := hasSubChars needle.data hay.data

/-- Embedding of String.prototype.toUpperCase, character by character. -/
def toUpperStr (s : String) : String := ⟨s.data.map Char.toUpper⟩

/-- The three product-type groups of the Dashboard's By Product Type view
(Inventory.tsx lines 194-198). -/
inductive ProductGroup where
  | gaPit
  | upperBowl
  | lowerBowl
deriving DecidableEq

/-- Classification of a set into a product group (Inventory.tsx lines
206-215): the section is upper-cased; a section containing GA or PIT goes
to GA / Pit, otherwise one containing 200 or SECTION 2 goes to Upper Bowl
(200s), and everything else to Lower Bowl (100s). -/
def classifySection (sec : String) : ProductGroup :=
  let s := toUpperStr sec
  if strIncludes s "GA" || strIncludes s "PIT" then ProductGroup.gaPit
  else if strIncludes s "200" || strIncludes s "SECTION 2" then ProductGroup.upperBowl
  else ProductGroup.lowerBowl

/-- Date sort key (Inventory.tsx lines 201-204): the eight known dates map
to 1..8 and anything else to 99 through the `|| 99` fallback (no date maps
to 0, so the fallback fires exactly on unknown dates). -/
def dateOrderKey (d : String) : Nat :=
  if d = "Aug 28" then 1
  else if d = "Sept 2" then 2
  else if d = "Sept 18" then 3
  else if d = "Sept 19" then 4
  else if d = "Sept 25" then 5
  else if d = "Oct 9" then 6
  else if d = "Oct 17" then 7
  else if d = "Oct 31" then 8
  else 99

/-- The list pushed into one product group by the forEach of Inventory.tsx
lines 206-215: the sets classified into that group, in input order. -/
def productGroup (g : ProductGroup) (sets : List TicketSet) : List TicketSet :=
  sets.filter (fun s => decide (classifySection s.section_name = g))

/-- The per-group date sort of Inventory.tsx lines 218-220: a stable sort
on the date key, as Array.prototype.sort with the subtraction
comparator. -/
def sortGroupByDate (l : List TicketSet) : List TicketSet :=
  l.mergeSort (fun a b => dateOrderKey a.date ≤ dateOrderKey b.date)

/-- Group ticket count as computed by the reduce over the sorted group
(Inventory.tsx line 227). -/
def groupQty (g : ProductGroup) (sets : List TicketSet) : ℚ :=
  (sortGroupByDate (productGroup g sets)).foldl (fun sum s => sum + s.quantity) 0

theorem foldl_add_quantity (l : List TicketSet) (c : ℚ) :
    l.foldl (fun sum s => sum + s.quantity) c =
      c + (l.map (fun s => s.quantity)).sum := by
  induction l generalizing c with
  | nil => simp
  | cons s t ih =>
    rw [List.foldl_cons, ih]
    simp only [List.map_cons, List.sum_cons]
    ring

theorem groupQty_eq (g : ProductGroup) (sets : List TicketSet) :
    groupQty g sets = ((productGroup g sets).map (fun s => s.quantity)).sum := by
  rw [groupQty, foldl_add_quantity, zero_add]
  have hperm : List.Perm (sortGroupByDate (productGroup g sets)) (productGroup g sets) :=
    List.mergeSort_perm _ _
  exact (hperm.map _).sum_eq

theorem classify_partition_qty (sets : List TicketSet) :
    ((productGroup ProductGroup.gaPit sets).map (fun s => s.quantity)).sum +
        ((productGroup ProductGroup.upperBowl sets).map (fun s => s.quantity)).sum +
        ((productGroup ProductGroup.lowerBowl sets).map (fun s => s.quantity)).sum =
      (sets.map (fun s => s.quantity)).sum := by
  induction sets with
  | nil => simp [productGroup]
  | cons s t ih =>
    simp only [productGroup, List.filter_cons] at ih ⊢
    cases hc : classifySection s.section_name <;>
      simp [hc] <;> linarith [ih]

theorem classify_partition_len (sets : List TicketSet) :
    (productGroup ProductGroup.gaPit sets).length +
        (productGroup ProductGroup.upperBowl sets).length +
        (productGroup ProductGroup.lowerBowl sets).length = sets.length := by
  induction sets with
  | nil => simp [productGroup]
  | cons s t ih =>
    simp only [productGroup, List.filter_cons] at ih ⊢
    cases hc : classifySection s.section_name <;>
      simp [hc] <;> omega

/-- C10: the Dashboard's product-type grouping partitions the sets: each
set lands in exactly one of the three groups, so the three groups' ticket
quantities sum to the total quantity of the input list and the three
groups' sizes sum to the input length; no set is dropped or counted
twice. -/
theorem product_grouping_partitions (sets : List TicketSet) :
    groupQty ProductGroup.gaPit sets + groupQty ProductGroup.upperBowl sets +
        groupQty ProductGroup.lowerBowl sets =
      (sets.map (fun s => s.quantity)).sum ∧
    (productGroup ProductGroup.gaPit sets).length +
        (productGroup ProductGroup.upperBowl sets).length +
        (productGroup ProductGroup.lowerBowl sets).length = sets.length := by
  constructor
  · rw [groupQty_eq, groupQty_eq, groupQty_eq]
    exact classify_partition_qty sets
  · exact classify_partition_len sets

end HarryTix
